import Mathlib

/-!
# Verification of the n64js MI / VI register devices

A shallow embedding of the two memory-mapped controllers of the repository:

* `MIRegDevice` (src/unnamed/part_000): the MIPS-interface interrupt
  aggregation controller;
* `VIRegDevice` (src/src/devices/vi.js): the video-interface display timing
  controller.

Registers live in a word-addressable backing store (`MemRegion`, modelling the
`this.mem` memory region of the JS `Device` base class: `readU32`, `write32`,
`setBits32`, `clearBits32`).  JS 32-bit values are modelled as `Nat` (with
explicit masking where the code masks), JS signed results as `Int`.  Calls into
external collaborators (`n64js.cpu0.updateCause3`, `n64js.cpu0.addVblEvent`,
`presentBackBuffer`, `n64js.returnControlToSystem`) are recorded as a trace of
`HostEvent`s; the CPU scheduler's vertical-blank slot is modelled by the
`hasVblEvent` / `vblCount` fields.  Diagnostic logging is omitted (it has no
register-semantics effect).
-/

namespace N64

/-! ## MI register constants (src/unnamed/part_000) -/

def MI_MODE_REG : Nat := 0x00
def MI_VERSION_REG : Nat := 0x04
def MI_INTR_REG : Nat := 0x08
def MI_INTR_MASK_REG : Nat := 0x0C

def MI_CLR_INIT : Nat := 0x0080
def MI_SET_INIT : Nat := 0x0100
def MI_CLR_EBUS : Nat := 0x0200
def MI_SET_EBUS : Nat := 0x0400
def MI_CLR_DP_INTR : Nat := 0x0800
def MI_CLR_RDRAM : Nat := 0x1000
def MI_SET_RDRAM : Nat := 0x2000

def MI_MODE_INIT : Nat := 0x0080
def MI_MODE_EBUS : Nat := 0x0100
def MI_MODE_RDRAM : Nat := 0x0200

def MI_INTR_MASK_CLR_SP : Nat := 0x0001
def MI_INTR_MASK_SET_SP : Nat := 0x0002
def MI_INTR_MASK_CLR_SI : Nat := 0x0004
def MI_INTR_MASK_SET_SI : Nat := 0x0008
def MI_INTR_MASK_CLR_AI : Nat := 0x0010
def MI_INTR_MASK_SET_AI : Nat := 0x0020
def MI_INTR_MASK_CLR_VI : Nat := 0x0040
def MI_INTR_MASK_SET_VI : Nat := 0x0080
def MI_INTR_MASK_CLR_PI : Nat := 0x0100
def MI_INTR_MASK_SET_PI : Nat := 0x0200
def MI_INTR_MASK_CLR_DP : Nat := 0x0400
def MI_INTR_MASK_SET_DP : Nat := 0x0800

def MI_INTR_MASK_SP : Nat := 0x01
def MI_INTR_MASK_SI : Nat := 0x02
def MI_INTR_MASK_AI : Nat := 0x04
def MI_INTR_MASK_VI : Nat := 0x08
def MI_INTR_MASK_PI : Nat := 0x10
def MI_INTR_MASK_DP : Nat := 0x20

def MI_INTR_SP : Nat := 0x01
def MI_INTR_SI : Nat := 0x02
def MI_INTR_AI : Nat := 0x04
def MI_INTR_VI : Nat := 0x08
def MI_INTR_PI : Nat := 0x10
def MI_INTR_DP : Nat := 0x20

/-! ## Machine-word helpers -/

def u32Mask : Nat := 0xFFFFFFFF

/-- JS 32-bit bitwise NOT, restricted to unsigned operands below `2^32`:
`~x` as a 32-bit pattern is `0xFFFFFFFF XOR x`. -/
def not32 (x : Nat) : Nat := u32Mask ^^^ x

/-- JS `ToUint32` (the `>>> 0` coercion) applied to a signed value. -/
def toU32 (x : Int) : Nat := (Int.emod x (2 ^ 32)).toNat

/-- Reinterpret a stored unsigned 32-bit word as a signed 32-bit value
(what `DataView.getInt32` / the device `readS32` accessor yields). -/
def s32OfU32 (w : Nat) : Int := if w < 2 ^ 31 then (w : Int) else (w : Int) - 2 ^ 32

/-! ## Observable external calls -/

/-- One call into an external collaborator, in program order. -/
inductive HostEvent where
  | updateCause3 : HostEvent
  | addVblEvent : Nat → HostEvent
  | presentBackBuffer : HostEvent
  | returnControlToSystem : HostEvent
deriving DecidableEq, Repr

/-! ## The register backing store (memory region of the Device base class) -/

/-- A device's register backing store: a word at each byte offset, plus the
byte length of the underlying buffer (`this.u8.length`). -/
structure MemRegion where
  store : Nat → Nat
  len : Nat

def MemRegion.readU32 (m : MemRegion) (off : Nat) : Nat := m.store off

def MemRegion.write32 (m : MemRegion) (off v : Nat) : MemRegion :=
  { m with store := fun o => if o = off then v else m.store o }

def MemRegion.setBits32 (m : MemRegion) (off bits : Nat) : MemRegion :=
  m.write32 off (m.readU32 off ||| bits)

def MemRegion.clearBits32 (m : MemRegion) (off bits : Nat) : MemRegion :=
  m.write32 off (m.readU32 off &&& not32 bits)

theorem MemRegion.readU32_write32_self (m : MemRegion) (off v : Nat) :
    (m.write32 off v).readU32 off = v := by
  simp [MemRegion.write32, MemRegion.readU32]

theorem MemRegion.readU32_write32_ne (m : MemRegion) (off off' v : Nat)
    (h : off' ≠ off) : (m.write32 off v).readU32 off' = m.readU32 off' := by
  simp [MemRegion.write32, MemRegion.readU32, h]

theorem MemRegion.len_write32 (m : MemRegion) (off v : Nat) :
    (m.write32 off v).len = m.len := rfl

/-! ## MIRegDevice -/

/-- The MI controller: its register backing store plus the trace of calls it
makes into the CPU collaborator. -/
structure MIRegDevice where
  mem : MemRegion
  events : List HostEvent

/-- `setInterruptBit(bit)`: set the bit in MI_INTR_REG and call
`n64js.cpu0.updateCause3()` unconditionally. -/
def MIRegDevice.setInterruptBit (d : MIRegDevice) (bit : Nat) : MIRegDevice :=
  { d with mem := d.mem.setBits32 MI_INTR_REG bit
           events := d.events ++ [HostEvent.updateCause3] }

/-- `writeModeReg(value)`: for each of RDRAM / INIT / EBUS the set bit is
tested first and the clear bit second; a separate CLR_DP_INTR bit clears the
DP pending bit and forces `updateCause3`. -/
def MIRegDevice.writeModeReg (d : MIRegDevice) (value : Nat) : MIRegDevice :=
  let r0 := d.mem.readU32 MI_MODE_REG
  let r1 := if value &&& MI_SET_RDRAM ≠ 0 then r0 ||| MI_MODE_RDRAM else r0
  let r2 := if value &&& MI_CLR_RDRAM ≠ 0 then r1 &&& not32 MI_MODE_RDRAM else r1
  let r3 := if value &&& MI_SET_INIT ≠ 0 then r2 ||| MI_MODE_INIT else r2
  let r4 := if value &&& MI_CLR_INIT ≠ 0 then r3 &&& not32 MI_MODE_INIT else r3
  let r5 := if value &&& MI_SET_EBUS ≠ 0 then r4 ||| MI_MODE_EBUS else r4
  let r6 := if value &&& MI_CLR_EBUS ≠ 0 then r5 &&& not32 MI_MODE_EBUS else r5
  let d1 := { d with mem := d.mem.write32 MI_MODE_REG r6 }
  if value &&& MI_CLR_DP_INTR ≠ 0 then
    { d1 with mem := d1.mem.clearBits32 MI_INTR_REG MI_INTR_DP
              events := d1.events ++ [HostEvent.updateCause3] }
  else d1

/-- The 6-bit clear vector extracted from an interrupt-mask write value
(the `clr |= (value & MI_INTR_MASK_CLR_x) >>> k` accumulation). -/
def miClr (value : Nat) : Nat :=
  ((value &&& MI_INTR_MASK_CLR_SP) >>> 0) |||
  ((value &&& MI_INTR_MASK_CLR_SI) >>> 1) |||
  ((value &&& MI_INTR_MASK_CLR_AI) >>> 2) |||
  ((value &&& MI_INTR_MASK_CLR_VI) >>> 3) |||
  ((value &&& MI_INTR_MASK_CLR_PI) >>> 4) |||
  ((value &&& MI_INTR_MASK_CLR_DP) >>> 5)

/-- The 6-bit set vector extracted from an interrupt-mask write value
(the `set |= (value & MI_INTR_MASK_SET_x) >>> k` accumulation). -/
def miSet (value : Nat) : Nat :=
  ((value &&& MI_INTR_MASK_SET_SP) >>> 1) |||
  ((value &&& MI_INTR_MASK_SET_SI) >>> 2) |||
  ((value &&& MI_INTR_MASK_SET_AI) >>> 3) |||
  ((value &&& MI_INTR_MASK_SET_VI) >>> 4) |||
  ((value &&& MI_INTR_MASK_SET_PI) >>> 5) |||
  ((value &&& MI_INTR_MASK_SET_DP) >>> 6)

/-- `writeIntrMaskReg(value)`: `mask = (mask & ~clr) | set`; after storing,
`updateCause3` is called only when `mask & pending` is non-zero. -/
def MIRegDevice.writeIntrMaskReg (d : MIRegDevice) (value : Nat) : MIRegDevice :=
  let mi_intr_mask_reg := d.mem.readU32 MI_INTR_MASK_REG
  let mi_intr_reg := d.mem.readU32 MI_INTR_REG
  let clr := miClr value
  let setv := miSet value
  let newMask := (mi_intr_mask_reg &&& not32 clr) ||| setv
  let d1 := { d with mem := d.mem.write32 MI_INTR_MASK_REG newMask }
  if newMask &&& mi_intr_reg ≠ 0 then
    { d1 with events := d1.events ++ [HostEvent.updateCause3] }
  else d1

/-- Modelled from the spec: the MI controller overrides no read accessor, so
bus reads of its registers go through the `Device` base class word-read path,
which is not under src/.  Per the spec's Register Block contract (§4.1, §7),
a word read bounds-checks `offset + 4` against the backing store length,
fails the whole access with a bounds error when it exceeds it, and otherwise
returns the stored unsigned word with no side effects. -/
def MIRegDevice.readU32 (d : MIRegDevice) (ea : Nat) : Except String Nat :=
  if ea + 4 > d.mem.len then Except.error "Read is out of range"
  else Except.ok (d.mem.readU32 ea)

/-- Modelled from the spec: the signed variant of the `Device` base class
word-read path (not under src/): the same bounds check, then the stored word
returned as a signed 32-bit value. -/
def MIRegDevice.readS32 (d : MIRegDevice) (ea : Nat) : Except String Int :=
  if ea + 4 > d.mem.len then Except.error "Read is out of range"
  else Except.ok (s32OfU32 (d.mem.readU32 ea))

/-- `MIRegDevice.write32`: bounds check first, then dispatch on the register
offset; VERSION and INTR are read-only, undecoded offsets are raw stores. -/
def MIRegDevice.write32 (d : MIRegDevice) (ea value : Nat) :
    Except String MIRegDevice :=
  if ea + 4 > d.mem.len then Except.error "Write is out of range" else
  if ea = MI_MODE_REG then Except.ok (d.writeModeReg value) else
  if ea = MI_INTR_MASK_REG then Except.ok (d.writeIntrMaskReg value) else
  if ea = MI_VERSION_REG ∨ ea = MI_INTR_REG then Except.ok d
  else Except.ok { d with mem := d.mem.write32 ea value }

/-! ## VI register constants (src/src/devices/vi.js) -/

def VI_CONTROL_REG : Nat := 0x00
def VI_DRAM_ADDR_REG : Nat := 0x04
def VI_H_WIDTH_REG : Nat := 0x08
def VI_V_INTR_REG : Nat := 0x0C
def VI_V_CURRENT_LINE_REG : Nat := 0x10
def VI_TIMING_REG : Nat := 0x14
def VI_V_SYNC_REG : Nat := 0x18
def VI_H_SYNC_REG : Nat := 0x1C
def VI_H_SYNC_LEAP_REG : Nat := 0x20
def VI_H_VIDEO_REG : Nat := 0x24
def VI_V_VIDEO_REG : Nat := 0x28
def VI_V_BURST_REG : Nat := 0x2C
def VI_X_SCALE_REG : Nat := 0x30
def VI_Y_SCALE_REG : Nat := 0x34

def VI_CTRL_SERRATE_ON : Nat := 0x00040

def VI_PAL_CLOCK : Nat := 49656530
def VI_NTSC_CLOCK : Nat := 48681812
def VI_MPAL_CLOCK : Nat := 48628316

/-! ## VIRegDevice -/

/-- The VI controller: its own register backing store, the MI controller's
backing store (`this.hardware.mi_reg`, which the VI code pokes directly via
`setBits32` / `clearBits32`), the scalar timing fields of the JS class, a
model of the CPU scheduler's vertical-blank slot (`hasVblEvent` answers
`n64js.cpu0.hasVblEvent()`, `vblCount` answers `n64js.cpu0.getVblCount()`),
and the trace of external calls. -/
structure VIRegDevice where
  mem : MemRegion
  miMem : MemRegion
  field : Nat
  clock : Nat
  refreshRate : Nat
  countPerScanline : Nat
  countPerVbl : Nat
  hasVblEvent : Bool
  vblCount : Nat
  events : List HostEvent

/-- `n64js.cpu0.addVblEvent(cycles)`: the scheduler records a pending
vertical-blank callback due after `cycles` cycles. -/
def VIRegDevice.addVblEvent (d : VIRegDevice) (cycles : Nat) : VIRegDevice :=
  { d with hasVblEvent := true
           vblCount := cycles
           events := d.events ++ [HostEvent.addVblEvent cycles] }

/-- `initInterrupt()`: skip when a vertical-blank event is already pending;
otherwise schedule `countPerVbl` cycles out unless `intr >= sync`. -/
def VIRegDevice.initInterrupt (d : VIRegDevice) : VIRegDevice :=
  if d.hasVblEvent then d
  else
    let intr := d.mem.readU32 VI_V_INTR_REG
    let sync := d.mem.readU32 VI_V_SYNC_REG
    if intr ≥ sync then d
    else d.addVblEvent d.countPerVbl

/-- `verticalBlank()`: XOR the field with the interlaced flag, re-arm the
vertical-blank event, raise the VI pending bit in the MI register block and
call `updateCause3`, then present the back buffer and yield to the host. -/
def VIRegDevice.verticalBlank (d : VIRegDevice) : VIRegDevice :=
  let control := d.mem.readU32 VI_CONTROL_REG
  let interlaced := if control &&& VI_CTRL_SERRATE_ON ≠ 0 then 1 else 0
  let d1 := { d with field := d.field ^^^ interlaced }
  let d2 := d1.addVblEvent d1.countPerVbl
  let d3 := { d2 with miMem := d2.miMem.setBits32 MI_INTR_REG MI_INTR_VI
                      events := d2.events ++ [HostEvent.updateCause3] }
  { d3 with events :=
      d3.events ++ [HostEvent.presentBackBuffer, HostEvent.returnControlToSystem] }

/-- JS `((this.clock / this.refreshRate) / scanlines) >> 0`: JS number
division is exact (modelled as rational division) and `>> 0` truncates toward
zero, which on these nonnegative quantities is the floor. -/
def scanlineCycles (clock refreshRate scanlines : Nat) : Nat :=
  ⌊((clock : ℚ) / (refreshRate : ℚ)) / (scanlines : ℚ)⌋₊

/-- `VIRegDevice.write32`: bounds check, then the register dispatch switch of
the source. -/
def VIRegDevice.write32 (d : VIRegDevice) (ea value : Nat) :
    Except String VIRegDevice :=
  if ea + 4 > d.mem.len then Except.error "Write is out of range" else
  if ea = VI_DRAM_ADDR_REG then Except.ok { d with mem := d.mem.write32 ea value } else
  if ea = VI_CONTROL_REG then Except.ok { d with mem := d.mem.write32 ea value } else
  if ea = VI_H_WIDTH_REG then Except.ok { d with mem := d.mem.write32 ea value } else
  if ea = VI_V_INTR_REG then
    Except.ok ({ d with mem := d.mem.write32 ea value }).initInterrupt else
  if ea = VI_V_CURRENT_LINE_REG then
    Except.ok { d with miMem := d.miMem.clearBits32 MI_INTR_REG MI_INTR_VI
                       events := d.events ++ [HostEvent.updateCause3] } else
  if ea = VI_V_SYNC_REG then
    (let lastSync := d.mem.readU32 ea
     if lastSync ≠ value then
       let scanlines := value + 1
       let cps := scanlineCycles d.clock d.refreshRate scanlines
       let d1 := { d with countPerScanline := cps
                          countPerVbl := scanlines * cps
                          mem := d.mem.write32 ea value }
       Except.ok d1.initInterrupt
     else Except.ok d)
  else Except.ok { d with mem := d.mem.write32 ea value }

/-- `VIRegDevice.readS32`: bounds check; the current-line register is
recomputed from the scheduler state and written back before being read out;
every other register is a plain signed read of the backing store.
JS `value = (value & ~1) | this.field` clears bit 0 of the two's-complement
value and ORs in the (0/1) field bit, i.e. `value - value mod 2 + field`. -/
def VIRegDevice.readS32 (d : VIRegDevice) (ea : Nat) :
    Except String (Int × VIRegDevice) :=
  if ea + 4 > d.mem.len then Except.error "Read is out of range" else
  if ea = VI_V_CURRENT_LINE_REG then
    let cyclesToNextVbl : Int := (d.vblCount : Int)
    let countExecuted : Int := (d.countPerVbl : Int) - cyclesToNextVbl
    let scanline : Int := Int.tdiv countExecuted (d.countPerScanline : Int)
    let sync : Int := (d.mem.readU32 VI_V_SYNC_REG : Int)
    let v1 : Int := if sync ≤ scanline then scanline - sync else scanline
    let v2 : Int := (v1 - Int.emod v1 2) + (d.field : Int)
    let d1 := { d with mem := d.mem.write32 ea (toU32 v2) }
    Except.ok (s32OfU32 (d1.mem.readU32 ea), d1)
  else Except.ok (s32OfU32 (d.mem.readU32 ea), d)

/-- `VIRegDevice.readU32`: `return this.readS32(address) >>> 0`. -/
def VIRegDevice.readU32 (d : VIRegDevice) (ea : Nat) :
    Except String (Nat × VIRegDevice) :=
  (d.readS32 ea).map (fun p => (toU32 p.1, p.2))

/-! ## Bitwise helper lemmas -/

theorem testBit_true_of_and_ne (v m k : Nat) (hm : m = 2 ^ k)
    (h : v &&& m ≠ 0) : v.testBit k = true := by
  subst hm
  rw [Nat.and_two_pow] at h
  cases hb : v.testBit k
  · rw [hb] at h; simp at h
  · rfl

theorem and_eq_self_of_testBit (v m k : Nat) (hm : m = 2 ^ k)
    (h : v.testBit k = true) : v &&& m = m := by
  subst hm
  rw [Nat.and_two_pow, h]
  simp

theorem testBit7_and_not32_INIT (x : Nat) :
    (x &&& not32 MI_MODE_INIT).testBit 7 = false := by
  rw [Nat.testBit_and, (by decide : (not32 MI_MODE_INIT).testBit 7 = false)]
  simp

theorem testBit7_or_EBUS (x : Nat) :
    (x ||| MI_MODE_EBUS).testBit 7 = x.testBit 7 := by
  rw [Nat.testBit_or, (by decide : (MI_MODE_EBUS).testBit 7 = false)]
  simp

theorem testBit7_and_not32_EBUS (x : Nat) :
    (x &&& not32 MI_MODE_EBUS).testBit 7 = x.testBit 7 := by
  rw [Nat.testBit_and, (by decide : (not32 MI_MODE_EBUS).testBit 7 = true)]
  simp

/-! ## MI register-level helper lemmas -/

theorem MIRegDevice.writeIntrMaskReg_mask (d : MIRegDevice) (v : Nat) :
    (d.writeIntrMaskReg v).mem.readU32 MI_INTR_MASK_REG =
      (d.mem.readU32 MI_INTR_MASK_REG &&& not32 (miClr v)) ||| miSet v := by
  by_cases h : ((d.mem.readU32 MI_INTR_MASK_REG &&& not32 (miClr v)) ||| miSet v)
      &&& d.mem.readU32 MI_INTR_REG ≠ 0 <;>
    simp [MIRegDevice.writeIntrMaskReg, h, MemRegion.readU32_write32_self]

theorem MIRegDevice.writeIntrMaskReg_events (d : MIRegDevice) (v : Nat) :
    (d.writeIntrMaskReg v).events =
      d.events ++
        (if ((d.mem.readU32 MI_INTR_MASK_REG &&& not32 (miClr v)) ||| miSet v)
            &&& d.mem.readU32 MI_INTR_REG ≠ 0
         then [HostEvent.updateCause3] else []) := by
  by_cases h : ((d.mem.readU32 MI_INTR_MASK_REG &&& not32 (miClr v)) ||| miSet v)
      &&& d.mem.readU32 MI_INTR_REG ≠ 0 <;>
    simp [MIRegDevice.writeIntrMaskReg, h]

theorem MIRegDevice.writeModeReg_mode (d : MIRegDevice) (v : Nat) :
    (d.writeModeReg v).mem.readU32 MI_MODE_REG =
      (let r0 := d.mem.readU32 MI_MODE_REG
       let r1 := if v &&& MI_SET_RDRAM ≠ 0 then r0 ||| MI_MODE_RDRAM else r0
       let r2 := if v &&& MI_CLR_RDRAM ≠ 0 then r1 &&& not32 MI_MODE_RDRAM else r1
       let r3 := if v &&& MI_SET_INIT ≠ 0 then r2 ||| MI_MODE_INIT else r2
       let r4 := if v &&& MI_CLR_INIT ≠ 0 then r3 &&& not32 MI_MODE_INIT else r3
       let r5 := if v &&& MI_SET_EBUS ≠ 0 then r4 ||| MI_MODE_EBUS else r4
       if v &&& MI_CLR_EBUS ≠ 0 then r5 &&& not32 MI_MODE_EBUS else r5) := by
  by_cases h : v &&& MI_CLR_DP_INTR ≠ 0 <;>
    simp [MIRegDevice.writeModeReg, h, MemRegion.clearBits32,
      MemRegion.readU32_write32_self, MemRegion.readU32_write32_ne,
      MI_MODE_REG, MI_INTR_REG]

/-! ## Claim C1 -/

/-- C1: a write to the MI interrupt-mask register produces
`mask = (mask AND NOT clr) OR set` with `clr`/`set` the extracted 6-bit
vectors, so a value carrying both `CLR_VI` and `SET_VI` leaves the VI mask
bit (bit 3) set — set wins; whereas a write to the MI mode register applies
each flag's set bit before its clear bit, so a value carrying both
`SET_INIT` and `CLR_INIT` leaves the INIT mode flag (bit 7) cleared — clear
wins: the two registers exhibit opposite precedence. -/
theorem mi_mask_set_wins_mode_clear_wins :
    (∀ (d : MIRegDevice) (v : Nat),
        (d.writeIntrMaskReg v).mem.readU32 MI_INTR_MASK_REG =
          (d.mem.readU32 MI_INTR_MASK_REG &&& not32 (miClr v)) ||| miSet v) ∧
    (∀ (d : MIRegDevice) (v : Nat),
        v &&& MI_INTR_MASK_CLR_VI ≠ 0 → v &&& MI_INTR_MASK_SET_VI ≠ 0 →
        ((d.writeIntrMaskReg v).mem.readU32 MI_INTR_MASK_REG).testBit 3 = true) ∧
    (∀ (d : MIRegDevice) (v : Nat),
        v &&& MI_SET_INIT ≠ 0 → v &&& MI_CLR_INIT ≠ 0 →
        ((d.writeModeReg v).mem.readU32 MI_MODE_REG).testBit 7 = false) := by
  refine ⟨fun d v => MIRegDevice.writeIntrMaskReg_mask d v, fun d v hclr hset => ?_,
    fun d v hset hclr => ?_⟩
  · have h7 : v.testBit 7 = true :=
      testBit_true_of_and_ne v MI_INTR_MASK_SET_VI 7 (by decide) hset
    have h80 : v &&& MI_INTR_MASK_SET_VI = MI_INTR_MASK_SET_VI :=
      and_eq_self_of_testBit v MI_INTR_MASK_SET_VI 7 (by decide) h7
    rw [MIRegDevice.writeIntrMaskReg_mask]
    have hs : (miSet v).testBit 3 = true := by
      rw [miSet, h80]
      simp only [Nat.testBit_or,
        (by decide : Nat.testBit (MI_INTR_MASK_SET_VI >>> 4) 3 = true)]
      simp
    rw [Nat.testBit_or, hs]
    simp
  · rw [MIRegDevice.writeModeReg_mode]
    simp only [hset, hclr, if_true, ne_eq, not_false_iff]
    by_cases h5 : v &&& MI_SET_EBUS = 0 <;> by_cases h6 : v &&& MI_CLR_EBUS = 0 <;>
      simp [h5, h6, (by decide : (not32 MI_MODE_INIT).testBit 7 = false),
        (by decide : (not32 MI_MODE_EBUS).testBit 7 = true),
        (by decide : MI_MODE_EBUS.testBit 7 = false),
        (by decide : MI_MODE_INIT.testBit 7 = true)]

/-- Witness for C1 at a concrete device and write values: a mask write of
`CLR_VI OR SET_VI` sets the VI mask bit; a mode write of
`SET_INIT OR CLR_INIT` clears the INIT flag. -/
theorem mi_mask_set_wins_mode_clear_wins_witness :
    ((0xC0 : Nat) &&& MI_INTR_MASK_CLR_VI ≠ 0) ∧
    ((0xC0 : Nat) &&& MI_INTR_MASK_SET_VI ≠ 0) ∧
    ((0x180 : Nat) &&& MI_SET_INIT ≠ 0) ∧
    ((0x180 : Nat) &&& MI_CLR_INIT ≠ 0) ∧
    (((⟨⟨fun _ => 0, 0x10⟩, []⟩ : MIRegDevice).writeIntrMaskReg
        0xC0).mem.readU32 MI_INTR_MASK_REG).testBit 3 = true ∧
    (((⟨⟨fun _ => 0, 0x10⟩, []⟩ : MIRegDevice).writeModeReg
        0x180).mem.readU32 MI_MODE_REG).testBit 7 = false :=
  ⟨by decide, by decide, by decide, by decide,
    mi_mask_set_wins_mode_clear_wins.2.1 ⟨⟨fun _ => 0, 0x10⟩, []⟩ 0xC0
      (by decide) (by decide),
    mi_mask_set_wins_mode_clear_wins.2.2 ⟨⟨fun _ => 0, 0x10⟩, []⟩ 0x180
      (by decide) (by decide)⟩

/-! ## Claim C6 (corrected) -/

/-- C6 counterexample: in a device whose pending register is zero, the
interrupt-mask write `SET_VI` (which leaves `mask AND pending = 0`) emits no
`updateCause3` call — contradicting the claim that every interrupt-mask
register write triggers CPU interrupt-line re-evaluation, including writes
after which `mask AND pending` is zero. -/
theorem mi_mask_write_no_reevaluation_counterexample :
    ((⟨⟨fun _ => 0, 0x10⟩, []⟩ : MIRegDevice).writeIntrMaskReg
        MI_INTR_MASK_SET_VI).events ≠
      ([] : List HostEvent) ++ [HostEvent.updateCause3] := by
  decide

/-- C6 amended: raising a pending bit via `setInterruptBit` ORs the bit into
MI_INTR_REG and triggers CPU interrupt-line re-evaluation unconditionally;
an interrupt-mask register write triggers re-evaluation if and only if the
newly computed mask ANDed with the pending register is non-zero (writes
leaving `mask AND pending = 0` do not re-evaluate). -/
theorem mi_reevaluation_discipline :
    (∀ (d : MIRegDevice) (bit : Nat),
        (d.setInterruptBit bit).mem.readU32 MI_INTR_REG =
            d.mem.readU32 MI_INTR_REG ||| bit ∧
          (d.setInterruptBit bit).events = d.events ++ [HostEvent.updateCause3]) ∧
    (∀ (d : MIRegDevice) (v : Nat),
        (d.writeIntrMaskReg v).events =
          d.events ++
            (if ((d.mem.readU32 MI_INTR_MASK_REG &&& not32 (miClr v)) ||| miSet v)
                &&& d.mem.readU32 MI_INTR_REG ≠ 0
             then [HostEvent.updateCause3] else [])) := by
  refine ⟨fun d bit => ⟨?_, rfl⟩, fun d v => MIRegDevice.writeIntrMaskReg_events d v⟩
  simp [MIRegDevice.setInterruptBit, MemRegion.setBits32,
    MemRegion.readU32_write32_self]

/-! ## VI helper lemmas -/

/-- The exact-rational reading and the nested integer-division reading of the
retiming formula agree: truncating `(clock / refreshRate) / scanlines` once at
the end equals flooring after each division. -/
theorem scanlineCycles_eq (c r s : Nat) : scanlineCycles c r s = c / r / s := by
  unfold scanlineCycles
  rw [Nat.floor_div_nat, Nat.floor_div_nat, Nat.floor_natCast]

theorem VIRegDevice.mem_addVblEvent (d : VIRegDevice) (n : Nat) :
    (d.addVblEvent n).mem = d.mem := rfl

theorem VIRegDevice.mem_initInterrupt (d : VIRegDevice) :
    d.initInterrupt.mem = d.mem := by
  unfold VIRegDevice.initInterrupt
  split
  · rfl
  · dsimp only
    split <;> rfl

theorem VIRegDevice.countPerScanline_initInterrupt (d : VIRegDevice) :
    d.initInterrupt.countPerScanline = d.countPerScanline := by
  unfold VIRegDevice.initInterrupt
  split
  · rfl
  · dsimp only
    split <;> rfl

theorem VIRegDevice.countPerVbl_initInterrupt (d : VIRegDevice) :
    d.initInterrupt.countPerVbl = d.countPerVbl := by
  unfold VIRegDevice.initInterrupt
  split
  · rfl
  · dsimp only
    split <;> rfl

/-- Unfolding of a vertical-sync write whose value differs from the stored
one: recompute both timing counts, store the value, re-arm via
`initInterrupt`. -/
theorem VIRegDevice.write32_vsync_changed (d : VIRegDevice) (v : Nat)
    (hlen : VI_V_SYNC_REG + 4 ≤ d.mem.len)
    (hne : d.mem.readU32 VI_V_SYNC_REG ≠ v) :
    d.write32 VI_V_SYNC_REG v =
      Except.ok ({ d with
        countPerScanline := scanlineCycles d.clock d.refreshRate (v + 1)
        countPerVbl := (v + 1) * scanlineCycles d.clock d.refreshRate (v + 1)
        mem := d.mem.write32 VI_V_SYNC_REG v }).initInterrupt := by
  unfold VIRegDevice.write32
  rw [if_neg (by omega), if_neg (by decide), if_neg (by decide),
    if_neg (by decide), if_neg (by decide), if_neg (by decide), if_pos rfl,
    if_pos hne]

/-- Unfolding of a vertical-sync write of the currently stored value: a
complete no-op. -/
theorem VIRegDevice.write32_vsync_same (d : VIRegDevice) (v : Nat)
    (hlen : VI_V_SYNC_REG + 4 ≤ d.mem.len)
    (heq : d.mem.readU32 VI_V_SYNC_REG = v) :
    d.write32 VI_V_SYNC_REG v = Except.ok d := by
  unfold VIRegDevice.write32
  rw [if_neg (by omega), if_neg (by decide), if_neg (by decide),
    if_neg (by decide), if_neg (by decide), if_neg (by decide), if_pos rfl,
    if_neg (by simp [heq])]

/-! ## Claim C2 -/

/-- C2: a write of a value `V` to the VI vertical-sync register that differs
from the stored value sets `countPerScanline` to
`floor((clock / refreshRate) / (V+1))` (equivalently, nested integer floor
division `clock / refreshRate / (V+1)`) and `countPerVbl` to
`(V+1) * countPerScanline`, exactly. -/
theorem vi_vsync_write_retiming (d : VIRegDevice) (v : Nat)
    (hlen : VI_V_SYNC_REG + 4 ≤ d.mem.len)
    (hne : d.mem.readU32 VI_V_SYNC_REG ≠ v) :
    ∃ d', d.write32 VI_V_SYNC_REG v = Except.ok d' ∧
      d'.countPerScanline = d.clock / d.refreshRate / (v + 1) ∧
      d'.countPerVbl = (v + 1) * d'.countPerScanline := by
  refine ⟨_, VIRegDevice.write32_vsync_changed d v hlen hne, ?_, ?_⟩
  · rw [VIRegDevice.countPerScanline_initInterrupt, scanlineCycles_eq]
  · rw [VIRegDevice.countPerVbl_initInterrupt,
      VIRegDevice.countPerScanline_initInterrupt]

/-- A freshly reset VI device for an NTSC ROM (clock 48681812, refresh 60),
with zeroed register blocks of the mapped sizes (14 VI words, 4 MI words). -/
def viNTSC : VIRegDevice :=
  { mem := ⟨fun _ => 0, 0x38⟩
    miMem := ⟨fun _ => 0, 0x10⟩
    field := 0
    clock := VI_NTSC_CLOCK
    refreshRate := 60
    countPerScanline := 0
    countPerVbl := 0
    hasVblEvent := false
    vblCount := 0
    events := [] }

/-- Witness for C2: writing vertical-sync value 1 to the NTSC device yields
`countPerScanline = 48681812 / 60 / 2` and the matching `countPerVbl`. -/
theorem vi_vsync_write_retiming_witness :
    VI_V_SYNC_REG + 4 ≤ viNTSC.mem.len ∧
    viNTSC.mem.readU32 VI_V_SYNC_REG ≠ 1 ∧
    (∃ d', viNTSC.write32 VI_V_SYNC_REG 1 = Except.ok d' ∧
      d'.countPerScanline = viNTSC.clock / viNTSC.refreshRate / (1 + 1) ∧
      d'.countPerVbl = (1 + 1) * d'.countPerScanline) :=
  ⟨by decide, by decide, vi_vsync_write_retiming viNTSC 1 (by decide) (by decide)⟩

/-! ## Claim C3 (corrected) -/

/-- Evaluation of the retiming at V = 524 on the NTSC device:
`floor(48681812 / 60 / 525) = 1545`, not 1546. -/
theorem viNTSC_sync524 :
    (viNTSC.write32 VI_V_SYNC_REG 524).map
        (fun d' => (d'.countPerScanline, d'.countPerVbl)) =
      Except.ok (1545, 525 * 1545) := by
  rw [VIRegDevice.write32_vsync_changed viNTSC 524 (by decide) (by decide)]
  simp only [Except.map, VIRegDevice.countPerScanline_initInterrupt,
    VIRegDevice.countPerVbl_initInterrupt]
  rw [scanlineCycles_eq]
  rfl

/-- C3 counterexample: with the NTSC clock 48681812, refresh rate 60 and
V = 524 (525 scanlines), the recomputed `countPerScanline` is not 1546:
`floor(48681812/60/525) = floor(811363.53/525) = floor(1545.45) = 1545`. -/
theorem vi_ntsc_sync524_not_1546 :
    (viNTSC.write32 VI_V_SYNC_REG 524).map (fun d' => d'.countPerScanline) ≠
      Except.ok 1546 := by
  rw [VIRegDevice.write32_vsync_changed viNTSC 524 (by decide) (by decide)]
  simp only [Except.map, VIRegDevice.countPerScanline_initInterrupt]
  rw [scanlineCycles_eq]
  intro h
  exact absurd (Except.ok.inj h) (by decide)

/-- C3 amended: with the NTSC clock (48681812), refresh rate 60 and V = 524
written to the vertical-sync register (scanline count 525), the recomputed
`countPerScanline` equals `floor(48681812/60/525) = 1545` and `countPerVbl`
equals `525 * 1545`. -/
theorem vi_ntsc_sync524_timing :
    (viNTSC.write32 VI_V_SYNC_REG 524).map
        (fun d' => (d'.countPerScanline, d'.countPerVbl)) =
      Except.ok (48681812 / 60 / 525, 525 * (48681812 / 60 / 525)) ∧
    48681812 / 60 / 525 = 1545 :=
  ⟨viNTSC_sync524, by decide⟩

/-! ## Claim C7 -/

/-- C7: writing the vertical-sync register with the currently stored value is
a complete no-op (no recomputation, no re-arming, no state change at all);
consequently writing the same value twice in a row recomputes only on the
first write — the second write returns the state unchanged. -/
theorem vi_vsync_same_write_noop :
    (∀ (d : VIRegDevice) (v : Nat), VI_V_SYNC_REG + 4 ≤ d.mem.len →
        d.mem.readU32 VI_V_SYNC_REG = v → d.write32 VI_V_SYNC_REG v = Except.ok d) ∧
    (∀ (d d' : VIRegDevice) (v : Nat),
        d.write32 VI_V_SYNC_REG v = Except.ok d' →
        d'.write32 VI_V_SYNC_REG v = Except.ok d') := by
  constructor
  · exact fun d v hlen heq => VIRegDevice.write32_vsync_same d v hlen heq
  · intro d d' v h
    by_cases hlen : VI_V_SYNC_REG + 4 ≤ d.mem.len
    · by_cases hne : d.mem.readU32 VI_V_SYNC_REG ≠ v
      · rw [VIRegDevice.write32_vsync_changed d v hlen hne] at h
        have hd' := Except.ok.inj h
        subst hd'
        refine VIRegDevice.write32_vsync_same _ v ?_ ?_
        · rw [VIRegDevice.mem_initInterrupt]
          simpa [MemRegion.len_write32] using hlen
        · rw [VIRegDevice.mem_initInterrupt]
          exact MemRegion.readU32_write32_self _ _ _
      · push_neg at hne
        rw [VIRegDevice.write32_vsync_same d v hlen hne] at h
        have hd' := Except.ok.inj h
        subst hd'
        exact VIRegDevice.write32_vsync_same d v hlen hne
    · unfold VIRegDevice.write32 at h
      rw [if_pos (by omega)] at h
      exact absurd h (by simp)

/-- Witness for C7: rewriting the reset value 0 to the vertical-sync register
of the NTSC device leaves it unchanged, and a changed write followed by the
same value is accepted unchanged the second time. -/
theorem vi_vsync_same_write_noop_witness :
    VI_V_SYNC_REG + 4 ≤ viNTSC.mem.len ∧
    viNTSC.mem.readU32 VI_V_SYNC_REG = 0 ∧
    viNTSC.write32 VI_V_SYNC_REG 0 = Except.ok viNTSC :=
  ⟨by decide, by decide,
    vi_vsync_same_write_noop.1 viNTSC 0 (by decide) (by decide)⟩

/-! ## Claim C4 -/

/-- C4: arming the vertical-blank event — if the scheduler already holds a
pending vertical-blank event, `initInterrupt` changes nothing; otherwise it
schedules a callback after `countPerVbl` cycles exactly when the stored
vertical-interrupt-line value is strictly below the stored vertical-sync
value.  Both the vertical-interrupt-line write path and the changed
vertical-sync write path run exactly this decision after storing. -/
theorem vi_vbl_arming_gate :
    (∀ d : VIRegDevice, d.hasVblEvent = true → d.initInterrupt = d) ∧
    (∀ d : VIRegDevice, d.hasVblEvent = false →
        d.initInterrupt =
          if d.mem.readU32 VI_V_INTR_REG < d.mem.readU32 VI_V_SYNC_REG
          then d.addVblEvent d.countPerVbl else d) ∧
    (∀ (d : VIRegDevice) (v : Nat), VI_V_INTR_REG + 4 ≤ d.mem.len →
        d.write32 VI_V_INTR_REG v =
          Except.ok ({ d with mem := d.mem.write32 VI_V_INTR_REG v }).initInterrupt) ∧
    (∀ (d : VIRegDevice) (v : Nat), VI_V_SYNC_REG + 4 ≤ d.mem.len →
        d.mem.readU32 VI_V_SYNC_REG ≠ v →
        d.write32 VI_V_SYNC_REG v =
          Except.ok ({ d with
            countPerScanline := scanlineCycles d.clock d.refreshRate (v + 1)
            countPerVbl := (v + 1) * scanlineCycles d.clock d.refreshRate (v + 1)
            mem := d.mem.write32 VI_V_SYNC_REG v }).initInterrupt) := by
  refine ⟨fun d h => ?_, fun d h => ?_, fun d v hlen => ?_,
    fun d v hlen hne => VIRegDevice.write32_vsync_changed d v hlen hne⟩
  · simp [VIRegDevice.initInterrupt, h]
  · unfold VIRegDevice.initInterrupt
    rw [if_neg (by simp [h])]
    dsimp only
    by_cases hc : d.mem.readU32 VI_V_INTR_REG < d.mem.readU32 VI_V_SYNC_REG
    · rw [if_pos hc, if_neg (by omega)]
    · rw [if_neg hc, if_pos (by omega)]
  · unfold VIRegDevice.write32
    rw [if_neg (by omega), if_neg (by decide), if_neg (by decide),
      if_neg (by decide), if_pos rfl]

/-- Witness for C4 at the reset NTSC device: no event is pending, the gate
compares 0 < 0 and declines, and a vertical-interrupt-line write runs the
decision after storing. -/
theorem vi_vbl_arming_gate_witness :
    viNTSC.hasVblEvent = false ∧
    viNTSC.initInterrupt =
      (if viNTSC.mem.readU32 VI_V_INTR_REG < viNTSC.mem.readU32 VI_V_SYNC_REG
       then viNTSC.addVblEvent viNTSC.countPerVbl else viNTSC) ∧
    VI_V_INTR_REG + 4 ≤ viNTSC.mem.len ∧
    viNTSC.write32 VI_V_INTR_REG 7 =
      Except.ok ({ viNTSC with
        mem := viNTSC.mem.write32 VI_V_INTR_REG 7 }).initInterrupt :=
  ⟨rfl, vi_vbl_arming_gate.2.1 viNTSC rfl, by decide,
    vi_vbl_arming_gate.2.2.1 viNTSC 7 (by decide)⟩

/-! ## Claim C5 (corrected) -/

/-- A VI device with stale odd field parity while the control register has
the serrate (interlace) bit clear. -/
def viOddField : VIRegDevice :=
  { mem := ⟨fun _ => 0, 0x38⟩
    miMem := ⟨fun _ => 0, 0x10⟩
    field := 1
    clock := VI_NTSC_CLOCK
    refreshRate := 60
    countPerScanline := 0
    countPerVbl := 0
    hasVblEvent := false
    vblCount := 0
    events := [] }

/-- C5 counterexample: with interlace (serrate) off and prior field parity 1,
a vertical blank leaves the field at 1 — it is not forced to 0, contradicting
the claim that with serrate clear the parity "is 0" on every subsequent
vertical blank regardless of prior parity. -/
theorem vi_field_serrate_off_counterexample :
    viOddField.mem.readU32 VI_CONTROL_REG &&& VI_CTRL_SERRATE_ON = 0 ∧
    viOddField.verticalBlank.field ≠ 0 := by
  exact ⟨by decide, by decide⟩

/-- Bit 0 of the value produced by the current-line computation equals the
field parity: the JS `(value & ~1) | field` step clears bit 0 and ORs the
0/1 parity in, and the store/reload through the 32-bit backing word
preserves bit 0. -/
theorem emod2_s32_toU32 (x : Int) (f : Nat) (hf : f ≤ 1) :
    Int.emod (s32OfU32 (toU32 ((x - Int.emod x 2) + (f : Int)))) 2 = (f : Int) := by
  unfold s32OfU32 toU32
  have h0 : (0 : Int) ≤ Int.emod ((x - Int.emod x 2) + (f : Int)) (2 ^ 32) :=
    Int.emod_nonneg _ (by norm_num)
  rw [Int.toNat_of_nonneg h0]
  have hm : ∀ a b : Int, Int.emod a b = a % b := fun a b => rfl
  simp only [hm, show ((2 : Int) ^ 32) = 4294967296 by norm_num,
    show ((2 : Nat) ^ 31) = 2147483648 by norm_num]
  split <;> omega

/-- C5 amended: on each vertical blank the field parity is XORed with the
interlaced flag — toggled when the control register's serrate bit is set and
left unchanged (not reset to 0) otherwise; and bit 0 of every value returned
by a current-line register read equals the field parity. -/
theorem vi_field_parity :
    (∀ d : VIRegDevice,
        d.verticalBlank.field =
          d.field ^^^
            (if d.mem.readU32 VI_CONTROL_REG &&& VI_CTRL_SERRATE_ON ≠ 0
             then 1 else 0)) ∧
    (∀ (d : VIRegDevice) (v : Int) (d' : VIRegDevice), d.field ≤ 1 →
        d.readS32 VI_V_CURRENT_LINE_REG = Except.ok (v, d') →
        Int.emod v 2 = (d.field : Int)) := by
  refine ⟨fun d => rfl, fun d v d' hf h => ?_⟩
  unfold VIRegDevice.readS32 at h
  by_cases hlen : VI_V_CURRENT_LINE_REG + 4 > d.mem.len
  · rw [if_pos hlen] at h
    exact absurd h (by simp)
  · rw [if_neg hlen, if_pos rfl] at h
    dsimp only at h
    rw [MemRegion.readU32_write32_self] at h
    have hv : v = s32OfU32 (toU32
        (((if (d.mem.readU32 VI_V_SYNC_REG : Int) ≤
              Int.tdiv ((d.countPerVbl : Int) - (d.vblCount : Int))
                (d.countPerScanline : Int)
            then Int.tdiv ((d.countPerVbl : Int) - (d.vblCount : Int))
                (d.countPerScanline : Int) - (d.mem.readU32 VI_V_SYNC_REG : Int)
            else Int.tdiv ((d.countPerVbl : Int) - (d.vblCount : Int))
                (d.countPerScanline : Int)) -
          Int.emod
            (if (d.mem.readU32 VI_V_SYNC_REG : Int) ≤
                Int.tdiv ((d.countPerVbl : Int) - (d.vblCount : Int))
                  (d.countPerScanline : Int)
              then Int.tdiv ((d.countPerVbl : Int) - (d.vblCount : Int))
                  (d.countPerScanline : Int) - (d.mem.readU32 VI_V_SYNC_REG : Int)
              else Int.tdiv ((d.countPerVbl : Int) - (d.vblCount : Int))
                  (d.countPerScanline : Int)) 2) +
          (d.field : Int))) :=
      (congrArg Prod.fst (Except.ok.inj h)).symm
    rw [hv]
    exact emod2_s32_toU32 _ d.field hf

/-- Witness for C5: the reset NTSC device has field parity 0 ≤ 1, and the
current-line read it produces returns an even value. -/
theorem vi_field_parity_witness :
    viNTSC.field ≤ 1 ∧
    Int.emod (0 : Int) 2 = (viNTSC.field : Int) := by
  refine ⟨by decide, ?_⟩
  have h := vi_field_parity.2 viNTSC 0
    ({ viNTSC with mem := viNTSC.mem.write32 VI_V_CURRENT_LINE_REG 0 })
    (by decide) rfl
  simpa using h

/-! ## Claim C8 -/

/-- C8: any bus write to the VI current-line register, with any value, acts
as an interrupt acknowledgment: the VI pending bit (bit 3 of MI_INTR_REG) is
cleared in the MI block, one `updateCause3` re-evaluation is requested, the
written value is discarded (the VI backing store is untouched), and every
other MI word — in particular the interrupt mask — and all the VI timing
fields are unchanged. -/
theorem vi_current_line_write_ack (d : VIRegDevice) (v : Nat)
    (hlen : VI_V_CURRENT_LINE_REG + 4 ≤ d.mem.len) :
    ∃ d', d.write32 VI_V_CURRENT_LINE_REG v = Except.ok d' ∧
      d'.mem = d.mem ∧
      ((d'.miMem.readU32 MI_INTR_REG).testBit 3 = false ∧
        d'.miMem.readU32 MI_INTR_REG =
          d.miMem.readU32 MI_INTR_REG &&& not32 MI_INTR_VI) ∧
      (∀ off, off ≠ MI_INTR_REG → d'.miMem.readU32 off = d.miMem.readU32 off) ∧
      d'.events = d.events ++ [HostEvent.updateCause3] ∧
      d'.field = d.field ∧ d'.countPerScanline = d.countPerScanline ∧
      d'.countPerVbl = d.countPerVbl ∧ d'.hasVblEvent = d.hasVblEvent := by
  refine ⟨{ d with miMem := d.miMem.clearBits32 MI_INTR_REG MI_INTR_VI
                   events := d.events ++ [HostEvent.updateCause3] }, ?_,
    rfl, ⟨?_, ?_⟩, fun off hoff => ?_, rfl, rfl, rfl, rfl, rfl⟩
  · unfold VIRegDevice.write32
    rw [if_neg (by omega), if_neg (by decide), if_neg (by decide),
      if_neg (by decide), if_neg (by decide), if_pos rfl]
  · show ((d.miMem.clearBits32 MI_INTR_REG MI_INTR_VI).readU32
        MI_INTR_REG).testBit 3 = false
    unfold MemRegion.clearBits32
    rw [MemRegion.readU32_write32_self, Nat.testBit_and,
      (by decide : (not32 MI_INTR_VI).testBit 3 = false)]
    simp
  · show (d.miMem.clearBits32 MI_INTR_REG MI_INTR_VI).readU32 MI_INTR_REG =
      d.miMem.readU32 MI_INTR_REG &&& not32 MI_INTR_VI
    unfold MemRegion.clearBits32
    rw [MemRegion.readU32_write32_self]
  · show (d.miMem.clearBits32 MI_INTR_REG MI_INTR_VI).readU32 off =
      d.miMem.readU32 off
    unfold MemRegion.clearBits32
    exact MemRegion.readU32_write32_ne _ _ _ _ hoff

/-- Witness for C8: acknowledging at the reset NTSC device with an arbitrary
written value 0xDEAD. -/
theorem vi_current_line_write_ack_witness :
    VI_V_CURRENT_LINE_REG + 4 ≤ viNTSC.mem.len ∧
    (∃ d', viNTSC.write32 VI_V_CURRENT_LINE_REG 0xDEAD = Except.ok d' ∧
      d'.mem = viNTSC.mem ∧
      ((d'.miMem.readU32 MI_INTR_REG).testBit 3 = false ∧
        d'.miMem.readU32 MI_INTR_REG =
          viNTSC.miMem.readU32 MI_INTR_REG &&& not32 MI_INTR_VI) ∧
      (∀ off, off ≠ MI_INTR_REG →
        d'.miMem.readU32 off = viNTSC.miMem.readU32 off) ∧
      d'.events = viNTSC.events ++ [HostEvent.updateCause3] ∧
      d'.field = viNTSC.field ∧ d'.countPerScanline = viNTSC.countPerScanline ∧
      d'.countPerVbl = viNTSC.countPerVbl ∧
      d'.hasVblEvent = viNTSC.hasVblEvent) :=
  ⟨by decide, vi_current_line_write_ack viNTSC 0xDEAD (by decide)⟩

/-! ## Claim C9 -/

/-- C9: every word access — read or write, on either controller — whose
offset plus 4 exceeds the backing store length fails with the bounds error
before any store happens: the operation returns the error and produces no
successor state, so no register changes and writes are all-or-nothing.  The
MI read path is the spec-modelled `Device` base class accessor. -/
theorem bounds_violation_fails_access :
    (∀ (d : VIRegDevice) (ea v : Nat), d.mem.len < ea + 4 →
        d.write32 ea v = Except.error "Write is out of range") ∧
    (∀ (d : VIRegDevice) (ea : Nat), d.mem.len < ea + 4 →
        d.readS32 ea = Except.error "Read is out of range") ∧
    (∀ (d : VIRegDevice) (ea : Nat), d.mem.len < ea + 4 →
        d.readU32 ea = Except.error "Read is out of range") ∧
    (∀ (d : MIRegDevice) (ea v : Nat), d.mem.len < ea + 4 →
        d.write32 ea v = Except.error "Write is out of range") ∧
    (∀ (d : MIRegDevice) (ea : Nat), d.mem.len < ea + 4 →
        d.readU32 ea = Except.error "Read is out of range") ∧
    (∀ (d : MIRegDevice) (ea : Nat), d.mem.len < ea + 4 →
        d.readS32 ea = Except.error "Read is out of range") := by
  have hrs : ∀ (d : VIRegDevice) (ea : Nat), d.mem.len < ea + 4 →
      d.readS32 ea = Except.error "Read is out of range" := by
    intro d ea h
    unfold VIRegDevice.readS32
    rw [if_pos h]
  refine ⟨fun d ea v h => ?_, hrs, fun d ea h => ?_, fun d ea v h => ?_,
    fun d ea h => ?_, fun d ea h => ?_⟩
  · unfold VIRegDevice.write32
    rw [if_pos h]
  · unfold VIRegDevice.readU32
    rw [hrs d ea h]
    rfl
  · unfold MIRegDevice.write32
    rw [if_pos h]
  · unfold MIRegDevice.readU32
    rw [if_pos h]
  · unfold MIRegDevice.readS32
    rw [if_pos h]

/-- The spec-modelled MI read path is side-effect free and returns the stored
word when in range (the Register Block contract this model follows). -/
theorem MIRegDevice.readU32_in_range (d : MIRegDevice) (ea : Nat)
    (h : ea + 4 ≤ d.mem.len) : d.readU32 ea = Except.ok (d.mem.readU32 ea) := by
  unfold MIRegDevice.readU32
  rw [if_neg (by omega)]

/-- Witness for C9: offset 0x38 is out of range for the 0x38-byte VI block
and offset 0x10 for the 0x10-byte MI block, for writes and for reads on both
controllers. -/
theorem bounds_violation_fails_access_witness :
    viNTSC.mem.len < 0x38 + 4 ∧
    viNTSC.write32 0x38 1 = Except.error "Write is out of range" ∧
    viNTSC.readS32 0x38 = Except.error "Read is out of range" ∧
    (⟨⟨fun _ => 0, 0x10⟩, []⟩ : MIRegDevice).write32 0x10 1 =
      Except.error "Write is out of range" ∧
    (⟨⟨fun _ => 0, 0x10⟩, []⟩ : MIRegDevice).readU32 0x10 =
      Except.error "Read is out of range" ∧
    (⟨⟨fun _ => 0, 0x10⟩, []⟩ : MIRegDevice).readS32 0x10 =
      Except.error "Read is out of range" :=
  ⟨by decide, bounds_violation_fails_access.1 viNTSC 0x38 1 (by decide),
    bounds_violation_fails_access.2.1 viNTSC 0x38 (by decide),
    bounds_violation_fails_access.2.2.2.1 ⟨⟨fun _ => 0, 0x10⟩, []⟩ 0x10 1 (by decide),
    bounds_violation_fails_access.2.2.2.2.1 ⟨⟨fun _ => 0, 0x10⟩, []⟩ 0x10 (by decide),
    bounds_violation_fails_access.2.2.2.2.2 ⟨⟨fun _ => 0, 0x10⟩, []⟩ 0x10 (by decide)⟩

/-! ## Claim C10 -/

/-- C10: a VI signed read of any in-range register other than the
current-line register returns the stored word (sign-reinterpreted) and a
completely unchanged device; a current-line read writes the freshly computed
value back into the backing store (its only mutation) and returns it; and
`readU32` always returns `readS32`'s result coerced by `>>> 0`, with the
same successor state. -/
theorem vi_read_purity :
    (∀ (d : VIRegDevice) (ea : Nat), ea + 4 ≤ d.mem.len →
        ea ≠ VI_V_CURRENT_LINE_REG →
        d.readS32 ea = Except.ok (s32OfU32 (d.mem.readU32 ea), d)) ∧
    (∀ (d : VIRegDevice) (ea : Nat),
        d.readU32 ea = (d.readS32 ea).map (fun p => (toU32 p.1, p.2))) ∧
    (∀ d : VIRegDevice, VI_V_CURRENT_LINE_REG + 4 ≤ d.mem.len →
        ∃ w, d.readS32 VI_V_CURRENT_LINE_REG =
          Except.ok (s32OfU32 w,
            { d with mem := d.mem.write32 VI_V_CURRENT_LINE_REG w })) := by
  refine ⟨fun d ea hlen hne => ?_, fun d ea => rfl, fun d hlen => ?_⟩
  · unfold VIRegDevice.readS32
    rw [if_neg (by omega), if_neg hne]
  · unfold VIRegDevice.readS32
    rw [if_neg (by omega), if_pos rfl]
    dsimp only
    rw [MemRegion.readU32_write32_self]
    exact ⟨_, rfl⟩

/-- Witness for C10: reading the control register of the reset NTSC device
is pure, and a current-line read only stores the computed word back. -/
theorem vi_read_purity_witness :
    VI_CONTROL_REG + 4 ≤ viNTSC.mem.len ∧
    VI_CONTROL_REG ≠ VI_V_CURRENT_LINE_REG ∧
    viNTSC.readS32 VI_CONTROL_REG =
      Except.ok (s32OfU32 (viNTSC.mem.readU32 VI_CONTROL_REG), viNTSC) ∧
    (∃ w, viNTSC.readS32 VI_V_CURRENT_LINE_REG =
      Except.ok (s32OfU32 w,
        { viNTSC with mem := viNTSC.mem.write32 VI_V_CURRENT_LINE_REG w })) :=
  ⟨by decide, by decide,
    vi_read_purity.1 viNTSC VI_CONTROL_REG (by decide) (by decide),
    vi_read_purity.2.2 viNTSC (by decide)⟩

end N64
